import Mathlib

/-!
Verification of the IPC layer of the `ovos-skill-roon` repository.

The development shallowly embeds, in Lean, the parts of the source the
spec's claims talk about:

* `src/rpc/schema.py` — the payload registry and the envelope codec
  (`enc_hook` / `dec_hook` / `encode` / `decode`, `Message.__eq__`);
* `src/rpc/server.py` — the request dispatcher
  (`Server.handle_message`, `Server.handle_client`);
* `src/rpc/client_sync.py` and `src/rpc/client_async.py` — the two
  reliable request/reply clients (`Client.dispatch`, `Client.handle_error`);
* `src/roon_proxy/roon_proxy_client.py` — the pub/sub subscribe logic
  (`RoonProxyClient.subscribe` / `unsubscribe`).

The inner payload serialization is delegated by the source to the
`msgspec.msgpack` library.  That library is external to the repository, so
its data model is modelled from the spec (section 6: a compact binary
record format supporting integers, strings, optional fields, nested
records, maps and lists) as the value tree `MsgValue`; byte-level msgpack
framing is injective and total on this tree, so envelopes are represented
at the tree level rather than as raw bytes.
-/

/-- The msgpack-style wire data model.  Modelled from the spec: the
repository serializes payloads with the external `msgspec.msgpack`
library, whose data model the spec describes as integers, strings,
optional fields, nested records, maps and lists.  Floats travel as IEEE-754
bit patterns, datetimes as timestamp values. -/
inductive MsgValue where
  | nil : MsgValue
  | bool (b : Bool) : MsgValue
  | int (n : Int) : MsgValue
  | str (s : String) : MsgValue
  | flt (bits : Nat) : MsgValue
  | arr (xs : List MsgValue) : MsgValue
  | map (kvs : List (String × MsgValue)) : MsgValue
  | timestamp (us : Int) : MsgValue

/-- An IEEE-754 double carried uninterpreted as its bit pattern
(the wire preserves it byte-for-byte). -/
structure PyFloat where
  bits : Nat
deriving DecidableEq

/-- `ItemType` enum from `src/roon_proxy/const.py` (values are the
`TYPE_*` strings). -/
inductive ItemType where
  | track | album | artist | playlist | genre | station | tag
deriving DecidableEq

def ItemType.toWire : ItemType → String
  | .track => "track"
  | .album => "album"
  | .artist => "artist"
  | .playlist => "playlist"
  | .genre => "genre"
  | .station => "station"
  | .tag => "tag"

def ItemType.ofWire : String → Option ItemType
  | "track" => some .track
  | "album" => some .album
  | "artist" => some .artist
  | "playlist" => some .playlist
  | "genre" => some .genre
  | "station" => some .station
  | "tag" => some .tag
  | _ => none

/-- `PairingStatus` enum from `src/roon_proxy/const.py`. -/
inductive PairingStatus where
  | in_progress | paired | failed | not_started | waiting_for_authorization
deriving DecidableEq

def PairingStatus.toWire : PairingStatus → String
  | .in_progress => "in-progress"
  | .paired => "paired"
  | .failed => "failed"
  | .not_started => "not-started"
  | .waiting_for_authorization => "waiting-for-auth"

def PairingStatus.ofWire : String → Option PairingStatus
  | "in-progress" => some .in_progress
  | "paired" => some .paired
  | "failed" => some .failed
  | "not-started" => some .not_started
  | "waiting-for-auth" => some .waiting_for_authorization
  | _ => none

/-- `DiscoverStatus` enum from `src/roon_proxy/const.py`. -/
inductive DiscoverStatus where
  | in_progress | discovered | failed | not_started
deriving DecidableEq

def DiscoverStatus.toWire : DiscoverStatus → String
  | .in_progress => "in-progress"
  | .discovered => "discovered"
  | .failed => "failed"
  | .not_started => "not-started"

def DiscoverStatus.ofWire : String → Option DiscoverStatus
  | "in-progress" => some .in_progress
  | "discovered" => some .discovered
  | "failed" => some .failed
  | "not-started" => some .not_started
  | _ => none

/-- `RepeatOption` literal type from `src/roon_types.py`. -/
inductive RepeatOption where
  | loop | loop_one | disabled
deriving DecidableEq

def RepeatOption.toWire : RepeatOption → String
  | .loop => "loop"
  | .loop_one => "loop_one"
  | .disabled => "disabled"

def RepeatOption.ofWire : String → Option RepeatOption
  | "loop" => some .loop
  | "loop_one" => some .loop_one
  | "disabled" => some .disabled
  | _ => none

/-- `BrowseItemHint` literal type from `src/roon_types.py`. -/
inductive BrowseItemHint where
  | action | action_list | list | header
deriving DecidableEq

def BrowseItemHint.toWire : BrowseItemHint → String
  | .action => "action"
  | .action_list => "action_list"
  | .list => "list"
  | .header => "header"

def BrowseItemHint.ofWire : String → Option BrowseItemHint
  | "action" => some .action
  | "action_list" => some .action_list
  | "list" => some .list
  | "header" => some .header
  | _ => none

/-- `PlaybackControlOption` is imported from `roon_proxy/roon_types.py`,
a module absent from `src/`.  Modelled from the spec: playback commands
carried as a closed set of literal strings (section 6 names playback
commands among the domain payloads). -/
inductive PlaybackControlOption where
  | play | pause | playpause | stop | previous | next
deriving DecidableEq

def PlaybackControlOption.toWire : PlaybackControlOption → String
  | .play => "play"
  | .pause => "pause"
  | .playpause => "playpause"
  | .stop => "stop"
  | .previous => "previous"
  | .next => "next"

def PlaybackControlOption.ofWire : String → Option PlaybackControlOption
  | "play" => some .play
  | "pause" => some .pause
  | "playpause" => some .playpause
  | "stop" => some .stop
  | "previous" => some .previous
  | "next" => some .next
  | _ => none

/-- `RoonAuthSettings` payload record from `src/roon_proxy/schema.py`
(also nested inside `RoonPairStatus`). -/
structure RoonAuthSettingsRec where
  host : String
  port : Int
  token : String
  core_id : String
  core_name : String

/-- `MycroftMetadata` typed dict from `src/roon_proxy/const.py`. -/
structure MycroftMetadataRec where
  path : Option (List String)
  session_key : Option String
  type : Option ItemType

/-- `EnrichedBrowseItem` typed dict from `src/roon_proxy/const.py`. -/
structure EnrichedBrowseItemRec where
  title : String
  subtitle : Option String
  image_key : Option String
  item_key : Option String
  hint : Option BrowseItemHint
  mycroft : MycroftMetadataRec
  confidence : PyFloat

/-- The closed set of payload record types registered in the payload
registry: the three protocol payloads of `src/rpc/schema.py`, the four
test payloads of `src/rpc/app_msgs.py`, and the twenty-one domain
payloads of `src/roon_proxy/schema.py`.  Field names, types and order
follow the Python class definitions. -/
inductive Payload where
  | EmptyPayload
  | UnhandledApplicationError (_exception : String)
  | DeserializationError (_exception message payload_type msg_id topic : String)
  | EchoRequest (message : String)
  | EchoResponse (echo : String)
  | SumRequest (a b : Int)
  | SumResponse (result : Int)
  | RoonAuthSettings (v : RoonAuthSettingsRec)
  | RoonCacheData (last_updated : Option Int) (radio_stations genres playlists : List MsgValue)
      (zones outputs : List (String × MsgValue))
  | RoonManualPairSettings (host : String) (port : Int) (token core_id core_name : Option String)
  | RoonDiscoverStatus (status : DiscoverStatus) (host : Option String) (port : Option Int)
  | RoonPairStatus (status : PairingStatus) (auth : Option RoonAuthSettingsRec)
  | MuteRequest (output_id : String) (mute : Bool)
  | VolumeRelativeChange (output_id : String) (relative_value : Int)
  | VolumeAbsoluteChange (output_id : String) (absolute_value : Int)
  | Shuffle (zone_or_output_id : String) (shuffle : Bool)
  | Repeat (zone_or_output_id : String) (repeat_option : RepeatOption)
  | PlaybackControl (zone_or_output_id : String) (playback_control : PlaybackControlOption)
  | PlaySearch (zone_or_output_id : String) (item_key : Option String) (session_key : String)
  | PlayPath (zone_or_output_id : String) (path : List String) (report_error : Bool)
      (action : Option String)
  | SearchType (item_type : ItemType) (query : String)
  | SearchGeneric (query : String) (session_key : String)
  | SearchTypeResult (results : List EnrichedBrowseItemRec)
  | SubscribeCommand (address : String)
  | NowPlayingCommand (zone_id : String)
  | NowPlayingReply (np : List (String × MsgValue))
  | GetImageCommand (image_key : String)
  | GetImageReply (url : Option String)

/-- `type(x.payload).__name__`: the type tag the codec writes into the
envelope (the Python class name of the payload). -/
def payloadTypeName : Payload → String
  | .EmptyPayload => "EmptyPayload"
  | .UnhandledApplicationError _ => "UnhandledApplicationError"
  | .DeserializationError _ _ _ _ _ => "DeserializationError"
  | .EchoRequest _ => "EchoRequest"
  | .EchoResponse _ => "EchoResponse"
  | .SumRequest _ _ => "SumRequest"
  | .SumResponse _ => "SumResponse"
  | .RoonAuthSettings _ => "RoonAuthSettings"
  | .RoonCacheData _ _ _ _ _ _ => "RoonCacheData"
  | .RoonManualPairSettings _ _ _ _ _ => "RoonManualPairSettings"
  | .RoonDiscoverStatus _ _ _ => "RoonDiscoverStatus"
  | .RoonPairStatus _ _ => "RoonPairStatus"
  | .MuteRequest _ _ => "MuteRequest"
  | .VolumeRelativeChange _ _ => "VolumeRelativeChange"
  | .VolumeAbsoluteChange _ _ => "VolumeAbsoluteChange"
  | .Shuffle _ _ => "Shuffle"
  | .Repeat _ _ => "Repeat"
  | .PlaybackControl _ _ => "PlaybackControl"
  | .PlaySearch _ _ _ => "PlaySearch"
  | .PlayPath _ _ _ _ => "PlayPath"
  | .SearchType _ _ => "SearchType"
  | .SearchGeneric _ _ => "SearchGeneric"
  | .SearchTypeResult _ => "SearchTypeResult"
  | .SubscribeCommand _ => "SubscribeCommand"
  | .NowPlayingCommand _ => "NowPlayingCommand"
  | .NowPlayingReply _ => "NowPlayingReply"
  | .GetImageCommand _ => "GetImageCommand"
  | .GetImageReply _ => "GetImageReply"

/-- The keys of `_payload_class_lookup` in `src/rpc/schema.py`: the three
protocol payloads found by `Payload.__subclasses__()` at import time,
followed by every class passed to `register_message_type`. -/
def registryNames : List String :=
  ["EmptyPayload", "UnhandledApplicationError", "DeserializationError",
   "EchoRequest", "EchoResponse", "SumRequest", "SumResponse",
   "RoonAuthSettings", "RoonCacheData", "RoonManualPairSettings",
   "RoonDiscoverStatus", "RoonPairStatus", "MuteRequest",
   "VolumeRelativeChange", "VolumeAbsoluteChange", "Shuffle", "Repeat",
   "PlaybackControl", "PlaySearch", "PlayPath", "SearchType",
   "SearchGeneric", "SearchTypeResult", "SubscribeCommand",
   "NowPlayingCommand", "NowPlayingReply", "GetImageCommand",
   "GetImageReply"]

/-! ### Field-level codecs

`msgspec.msgpack.encode` serializes a struct (or typed dict) as a map of
all its fields in declaration order; `None` travels as nil, enums and
string literals as their value strings, lists as arrays.
`msgspec.msgpack.decode(bytes, type=cls)` validates the value against the
class schema and returns `None` here on validation failure (the Python
code raises `msgspec.ValidationError`, which the callers below catch). -/

def encOptStr : Option String → MsgValue
  | none => .nil
  | some s => .str s

def decOptStr : MsgValue → Option (Option String)
  | .nil => some none
  | .str s => some (some s)
  | _ => none

def encOptInt : Option Int → MsgValue
  | none => .nil
  | some n => .int n

def decOptInt : MsgValue → Option (Option Int)
  | .nil => some none
  | .int n => some (some n)
  | _ => none

def encOptTimestamp : Option Int → MsgValue
  | none => .nil
  | some t => .timestamp t

def decOptTimestamp : MsgValue → Option (Option Int)
  | .nil => some none
  | .timestamp t => some (some t)
  | _ => none

def decStrList : List MsgValue → Option (List String)
  | [] => some []
  | .str s :: rest => (decStrList rest).map (s :: ·)
  | _ => none

def encOptStrList : Option (List String) → MsgValue
  | none => .nil
  | some l => .arr (l.map .str)

def decOptStrList : MsgValue → Option (Option (List String))
  | .nil => some none
  | .arr xs => (decStrList xs).map some
  | _ => none

def encOptHint : Option BrowseItemHint → MsgValue
  | none => .nil
  | some h => .str h.toWire

def decOptHint : MsgValue → Option (Option BrowseItemHint)
  | .nil => some none
  | .str s => (BrowseItemHint.ofWire s).map some
  | _ => none

def encOptItemType : Option ItemType → MsgValue
  | none => .nil
  | some t => .str t.toWire

def decOptItemType : MsgValue → Option (Option ItemType)
  | .nil => some none
  | .str s => (ItemType.ofWire s).map some
  | _ => none

def encAuth (a : RoonAuthSettingsRec) : MsgValue :=
  .map [("host", .str a.host), ("port", .int a.port), ("token", .str a.token),
        ("core_id", .str a.core_id), ("core_name", .str a.core_name)]

def decAuth : MsgValue → Option RoonAuthSettingsRec
  | .map [("host", .str h), ("port", .int p), ("token", .str t),
          ("core_id", .str ci), ("core_name", .str cn)] => some ⟨h, p, t, ci, cn⟩
  | _ => none

def encOptAuth : Option RoonAuthSettingsRec → MsgValue
  | none => .nil
  | some a => encAuth a

def decOptAuth : MsgValue → Option (Option RoonAuthSettingsRec)
  | .nil => some none
  | v => (decAuth v).map some

def encMycroft (m : MycroftMetadataRec) : MsgValue :=
  .map [("path", encOptStrList m.path), ("session_key", encOptStr m.session_key),
        ("type", encOptItemType m.type)]

def decMycroft : MsgValue → Option MycroftMetadataRec
  | .map [("path", pv), ("session_key", sv), ("type", tv)] =>
    match decOptStrList pv, decOptStr sv, decOptItemType tv with
    | some p, some s, some t => some ⟨p, s, t⟩
    | _, _, _ => none
  | _ => none

def encEBI (e : EnrichedBrowseItemRec) : MsgValue :=
  .map [("title", .str e.title), ("subtitle", encOptStr e.subtitle),
        ("image_key", encOptStr e.image_key), ("item_key", encOptStr e.item_key),
        ("hint", encOptHint e.hint), ("mycroft", encMycroft e.mycroft),
        ("confidence", .flt e.confidence.bits)]

def decEBI : MsgValue → Option EnrichedBrowseItemRec
  | .map [("title", .str t), ("subtitle", sv), ("image_key", iv),
          ("item_key", kv), ("hint", hv), ("mycroft", mv),
          ("confidence", .flt c)] =>
    match decOptStr sv, decOptStr iv, decOptStr kv, decOptHint hv, decMycroft mv with
    | some s, some i, some k, some h, some m => some ⟨t, s, i, k, h, m, ⟨c⟩⟩
    | _, _, _, _, _ => none
  | _ => none

def decEBIList : List MsgValue → Option (List EnrichedBrowseItemRec)
  | [] => some []
  | v :: rest =>
    match decEBI v, decEBIList rest with
    | some e, some es => some (e :: es)
    | _, _ => none

/-- The inner payload serialization: `msgspec.msgpack.encode(x.payload)`
restricted to the registered payload types. -/
def encPayload : Payload → MsgValue
  | .EmptyPayload => .map []
  | .UnhandledApplicationError e => .map [("_exception", .str e)]
  | .DeserializationError e m pt mid top =>
      .map [("_exception", .str e), ("message", .str m), ("payload_type", .str pt),
            ("msg_id", .str mid), ("topic", .str top)]
  | .EchoRequest m => .map [("message", .str m)]
  | .EchoResponse e => .map [("echo", .str e)]
  | .SumRequest a b => .map [("a", .int a), ("b", .int b)]
  | .SumResponse r => .map [("result", .int r)]
  | .RoonAuthSettings v => encAuth v
  | .RoonCacheData lu rs g pl z o =>
      .map [("last_updated", encOptTimestamp lu), ("radio_stations", .arr rs),
            ("genres", .arr g), ("playlists", .arr pl), ("zones", .map z),
            ("outputs", .map o)]
  | .RoonManualPairSettings h p t ci cn =>
      .map [("host", .str h), ("port", .int p), ("token", encOptStr t),
            ("core_id", encOptStr ci), ("core_name", encOptStr cn)]
  | .RoonDiscoverStatus s h p =>
      .map [("status", .str s.toWire), ("host", encOptStr h), ("port", encOptInt p)]
  | .RoonPairStatus s a => .map [("status", .str s.toWire), ("auth", encOptAuth a)]
  | .MuteRequest oid m => .map [("output_id", .str oid), ("mute", .bool m)]
  | .VolumeRelativeChange oid v =>
      .map [("output_id", .str oid), ("relative_value", .int v)]
  | .VolumeAbsoluteChange oid v =>
      .map [("output_id", .str oid), ("absolute_value", .int v)]
  | .Shuffle zid s => .map [("zone_or_output_id", .str zid), ("shuffle", .bool s)]
  | .Repeat zid r => .map [("zone_or_output_id", .str zid), ("repeat", .str r.toWire)]
  | .PlaybackControl zid c =>
      .map [("zone_or_output_id", .str zid), ("playback_control", .str c.toWire)]
  | .PlaySearch zid ik sk =>
      .map [("zone_or_output_id", .str zid), ("item_key", encOptStr ik),
            ("session_key", .str sk)]
  | .PlayPath zid p re a =>
      .map [("zone_or_output_id", .str zid), ("path", .arr (p.map .str)),
            ("report_error", .bool re), ("action", encOptStr a)]
  | .SearchType it q => .map [("item_type", .str it.toWire), ("query", .str q)]
  | .SearchGeneric q sk => .map [("query", .str q), ("session_key", .str sk)]
  | .SearchTypeResult rs => .map [("results", .arr (rs.map encEBI))]
  | .SubscribeCommand a => .map [("address", .str a)]
  | .NowPlayingCommand z => .map [("zone_id", .str z)]
  | .NowPlayingReply np => .map [("np", .map np)]
  | .GetImageCommand k => .map [("image_key", .str k)]
  | .GetImageReply u => .map [("url", encOptStr u)]

def decEmptyPayload : MsgValue → Option Payload
  | .map [] => some .EmptyPayload
  | _ => none

def decUnhandledApplicationError : MsgValue → Option Payload
  | .map [("_exception", .str e)] => some (.UnhandledApplicationError e)
  | _ => none

def decDeserializationError : MsgValue → Option Payload
  | .map [("_exception", .str e), ("message", .str m), ("payload_type", .str pt),
          ("msg_id", .str mid), ("topic", .str top)] =>
      some (.DeserializationError e m pt mid top)
  | _ => none

def decEchoRequest : MsgValue → Option Payload
  | .map [("message", .str m)] => some (.EchoRequest m)
  | _ => none

def decEchoResponse : MsgValue → Option Payload
  | .map [("echo", .str e)] => some (.EchoResponse e)
  | _ => none

def decSumRequest : MsgValue → Option Payload
  | .map [("a", .int a), ("b", .int b)] => some (.SumRequest a b)
  | _ => none

def decSumResponse : MsgValue → Option Payload
  | .map [("result", .int r)] => some (.SumResponse r)
  | _ => none

def decRoonAuthSettings (v : MsgValue) : Option Payload :=
  (decAuth v).map .RoonAuthSettings

def decRoonCacheData : MsgValue → Option Payload
  | .map [("last_updated", lv), ("radio_stations", .arr rs), ("genres", .arr g),
          ("playlists", .arr pl), ("zones", .map z), ("outputs", .map o)] =>
      (decOptTimestamp lv).map (fun lu => .RoonCacheData lu rs g pl z o)
  | _ => none

def decRoonManualPairSettings : MsgValue → Option Payload
  | .map [("host", .str h), ("port", .int p), ("token", tv),
          ("core_id", cv), ("core_name", nv)] =>
    match decOptStr tv, decOptStr cv, decOptStr nv with
    | some t, some ci, some cn => some (.RoonManualPairSettings h p t ci cn)
    | _, _, _ => none
  | _ => none

def decRoonDiscoverStatus : MsgValue → Option Payload
  | .map [("status", .str sv), ("host", hv), ("port", pv)] =>
    match DiscoverStatus.ofWire sv, decOptStr hv, decOptInt pv with
    | some s, some h, some p => some (.RoonDiscoverStatus s h p)
    | _, _, _ => none
  | _ => none

def decRoonPairStatus : MsgValue → Option Payload
  | .map [("status", .str sv), ("auth", av)] =>
    match PairingStatus.ofWire sv, decOptAuth av with
    | some s, some a => some (.RoonPairStatus s a)
    | _, _ => none
  | _ => none

def decMuteRequest : MsgValue → Option Payload
  | .map [("output_id", .str oid), ("mute", .bool m)] => some (.MuteRequest oid m)
  | _ => none

def decVolumeRelativeChange : MsgValue → Option Payload
  | .map [("output_id", .str oid), ("relative_value", .int v)] =>
      some (.VolumeRelativeChange oid v)
  | _ => none

def decVolumeAbsoluteChange : MsgValue → Option Payload
  | .map [("output_id", .str oid), ("absolute_value", .int v)] =>
      some (.VolumeAbsoluteChange oid v)
  | _ => none

def decShuffle : MsgValue → Option Payload
  | .map [("zone_or_output_id", .str zid), ("shuffle", .bool s)] =>
      some (.Shuffle zid s)
  | _ => none

def decRepeat : MsgValue → Option Payload
  | .map [("zone_or_output_id", .str zid), ("repeat", .str rv)] =>
      (RepeatOption.ofWire rv).map (.Repeat zid ·)
  | _ => none

def decPlaybackControl : MsgValue → Option Payload
  | .map [("zone_or_output_id", .str zid), ("playback_control", .str cv)] =>
      (PlaybackControlOption.ofWire cv).map (.PlaybackControl zid ·)
  | _ => none

def decPlaySearch : MsgValue → Option Payload
  | .map [("zone_or_output_id", .str zid), ("item_key", iv), ("session_key", .str sk)] =>
      (decOptStr iv).map (fun ik => .PlaySearch zid ik sk)
  | _ => none

def decPlayPath : MsgValue → Option Payload
  | .map [("zone_or_output_id", .str zid), ("path", .arr pv),
          ("report_error", .bool re), ("action", av)] =>
    match decStrList pv, decOptStr av with
    | some p, some a => some (.PlayPath zid p re a)
    | _, _ => none
  | _ => none

def decSearchType : MsgValue → Option Payload
  | .map [("item_type", .str iv), ("query", .str q)] =>
      (ItemType.ofWire iv).map (.SearchType · q)
  | _ => none

def decSearchGeneric : MsgValue → Option Payload
  | .map [("query", .str q), ("session_key", .str sk)] =>
      some (.SearchGeneric q sk)
  | _ => none

def decSearchTypeResult : MsgValue → Option Payload
  | .map [("results", .arr rv)] => (decEBIList rv).map .SearchTypeResult
  | _ => none

def decSubscribeCommand : MsgValue → Option Payload
  | .map [("address", .str a)] => some (.SubscribeCommand a)
  | _ => none

def decNowPlayingCommand : MsgValue → Option Payload
  | .map [("zone_id", .str z)] => some (.NowPlayingCommand z)
  | _ => none

def decNowPlayingReply : MsgValue → Option Payload
  | .map [("np", .map np)] => some (.NowPlayingReply np)
  | _ => none

def decGetImageCommand : MsgValue → Option Payload
  | .map [("image_key", .str k)] => some (.GetImageCommand k)
  | _ => none

def decGetImageReply : MsgValue → Option Payload
  | .map [("url", uv)] => (decOptStr uv).map .GetImageReply
  | _ => none

/-- `msgspec.msgpack.decode(data["payload"], type=payload_cls)` for the
class registered under `name`: schema-validated decoding of the inner
payload bytes.  Names outside the registry have no decoder. -/
def decodePayloadAs : String → MsgValue → Option Payload
  | "EmptyPayload", v => decEmptyPayload v
  | "UnhandledApplicationError", v => decUnhandledApplicationError v
  | "DeserializationError", v => decDeserializationError v
  | "EchoRequest", v => decEchoRequest v
  | "EchoResponse", v => decEchoResponse v
  | "SumRequest", v => decSumRequest v
  | "SumResponse", v => decSumResponse v
  | "RoonAuthSettings", v => decRoonAuthSettings v
  | "RoonCacheData", v => decRoonCacheData v
  | "RoonManualPairSettings", v => decRoonManualPairSettings v
  | "RoonDiscoverStatus", v => decRoonDiscoverStatus v
  | "RoonPairStatus", v => decRoonPairStatus v
  | "MuteRequest", v => decMuteRequest v
  | "VolumeRelativeChange", v => decVolumeRelativeChange v
  | "VolumeAbsoluteChange", v => decVolumeAbsoluteChange v
  | "Shuffle", v => decShuffle v
  | "Repeat", v => decRepeat v
  | "PlaybackControl", v => decPlaybackControl v
  | "PlaySearch", v => decPlaySearch v
  | "PlayPath", v => decPlayPath v
  | "SearchType", v => decSearchType v
  | "SearchGeneric", v => decSearchGeneric v
  | "SearchTypeResult", v => decSearchTypeResult v
  | "SubscribeCommand", v => decSubscribeCommand v
  | "NowPlayingCommand", v => decNowPlayingCommand v
  | "NowPlayingReply", v => decNowPlayingReply v
  | "GetImageCommand", v => decGetImageCommand v
  | "GetImageReply", v => decGetImageReply v
  | _, _ => none

/-! ### The envelope codec (`src/rpc/schema.py`) -/

/-- The outer envelope structure `enc_hook` produces: the dict
`{"type": ..., "topic": ..., "msg_id": ..., "payload": <bytes>}` whose
`payload` entry holds the independently serialized payload.  The outer
msgpack byte framing of this record is injective and total, so it is
modelled at the record level. -/
structure EnvelopeData where
  type : String
  topic : String
  msg_id : String
  payload : MsgValue

/-- The `Message` wrapper of `src/rpc/schema.py`. -/
structure Message where
  topic : String
  msg_id : String
  payload : Payload

/-- `Message.__eq__`: same topic, msg_id and payload (payload equality is
the field-wise equality `msgspec.Struct` derives). -/
def messageEq (a b : Message) : Prop :=
  a.topic = b.topic ∧ a.msg_id = b.msg_id ∧ a.payload = b.payload

/-- `is_empty_payload` from `src/rpc/schema.py` (class-name comparison). -/
def is_empty_payload : Payload → Bool
  | .EmptyPayload => true
  | _ => false

/-- `is_deserialize_error` from `src/rpc/schema.py` (class-name comparison). -/
def is_deserialize_error : Payload → Bool
  | .DeserializationError _ _ _ _ _ => true
  | _ => false

/-- `is_unhandled_application_error`: the class-name comparison
`rsp.payload.__class__.__name__ == UnhandledApplicationError.__name__`
performed by `Client.dispatch` in both client variants. -/
def is_unhandled_application_error : Payload → Bool
  | .UnhandledApplicationError _ => true
  | _ => false

/-- `repr(e)` of the `KeyError` raised by the registry lookup. -/
def keyErrorRepr (name : String) : String :=
  "KeyError(" ++ name ++ ")"

/-- `repr(e)` of the `msgspec.ValidationError` raised by payload decoding. -/
def validationErrorRepr (name : String) : String :=
  "ValidationError(" ++ name ++ ")"

/-- `enc_hook` from `src/rpc/schema.py`: serialize the payload, then wrap
it with the payload's class name, the topic and the msg_id. -/
def enc_hook (m : Message) : EnvelopeData :=
  { type := payloadTypeName m.payload
    topic := m.topic
    msg_id := m.msg_id
    payload := encPayload m.payload }

/-- `dec_hook` from `src/rpc/schema.py`: look the type tag up in
`_payload_class_lookup` (a miss raises `KeyError`, caught into a
`DeserializationError` payload), then decode the inner payload against the
registered class (a `msgspec.ValidationError` is likewise caught into a
`DeserializationError` payload). -/
def dec_hook (d : EnvelopeData) : Message :=
  if registryNames.contains d.type then
    match decodePayloadAs d.type d.payload with
    | some payload => { topic := d.topic, msg_id := d.msg_id, payload := payload }
    | none =>
      { topic := d.topic, msg_id := d.msg_id
        payload := .DeserializationError (validationErrorRepr d.type)
          ("Payload type failed to deserialize " ++ d.type) d.type d.msg_id d.topic }
  else
    { topic := d.topic, msg_id := d.msg_id
      payload := .DeserializationError (keyErrorRepr d.type)
        ("Unknown payload type: " ++ d.type) d.type d.msg_id d.topic }

/-- `encode` from `src/rpc/schema.py` (the outer msgpack byte framing is
modelled at the `EnvelopeData` level). -/
def encode (m : Message) : EnvelopeData := enc_hook m

/-- `decode` from `src/rpc/schema.py`. -/
def decode (d : EnvelopeData) : Message := dec_hook d

/-! ### Round-trip lemmas for the field codecs -/

theorem decOptStr_enc (o : Option String) : decOptStr (encOptStr o) = some o := by
  cases o <;> rfl

theorem decOptInt_enc (o : Option Int) : decOptInt (encOptInt o) = some o := by
  cases o <;> rfl

theorem decOptTimestamp_enc (o : Option Int) :
    decOptTimestamp (encOptTimestamp o) = some o := by
  cases o <;> rfl

theorem decStrList_enc (l : List String) : decStrList (l.map .str) = some l := by
  induction l with
  | nil => rfl
  | cons s rest ih => simp [List.map, decStrList, ih]

theorem decOptStrList_enc (o : Option (List String)) :
    decOptStrList (encOptStrList o) = some o := by
  cases o with
  | none => rfl
  | some l => simp [encOptStrList, decOptStrList, decStrList_enc]

theorem hint_ofWire_toWire (h : BrowseItemHint) :
    BrowseItemHint.ofWire h.toWire = some h := by
  cases h <;> rfl

theorem decOptHint_enc (o : Option BrowseItemHint) :
    decOptHint (encOptHint o) = some o := by
  cases o with
  | none => rfl
  | some h => simp [encOptHint, decOptHint, hint_ofWire_toWire]

theorem itemType_ofWire_toWire (t : ItemType) : ItemType.ofWire t.toWire = some t := by
  cases t <;> rfl

theorem decOptItemType_enc (o : Option ItemType) :
    decOptItemType (encOptItemType o) = some o := by
  cases o with
  | none => rfl
  | some t => simp [encOptItemType, decOptItemType, itemType_ofWire_toWire]

theorem pairingStatus_ofWire_toWire (s : PairingStatus) :
    PairingStatus.ofWire s.toWire = some s := by
  cases s <;> rfl

theorem discoverStatus_ofWire_toWire (s : DiscoverStatus) :
    DiscoverStatus.ofWire s.toWire = some s := by
  cases s <;> rfl

theorem repeatOption_ofWire_toWire (r : RepeatOption) :
    RepeatOption.ofWire r.toWire = some r := by
  cases r <;> rfl

theorem playbackControlOption_ofWire_toWire (c : PlaybackControlOption) :
    PlaybackControlOption.ofWire c.toWire = some c := by
  cases c <;> rfl

theorem decAuth_enc (a : RoonAuthSettingsRec) : decAuth (encAuth a) = some a := by
  rfl

theorem decOptAuth_enc (o : Option RoonAuthSettingsRec) :
    decOptAuth (encOptAuth o) = some o := by
  cases o with
  | none => rfl
  | some a => simp [encOptAuth, decOptAuth, encAuth, decAuth]

theorem decMycroft_enc (m : MycroftMetadataRec) : decMycroft (encMycroft m) = some m := by
  simp [encMycroft, decMycroft, decOptStrList_enc, decOptStr_enc, decOptItemType_enc]

theorem decEBI_enc (e : EnrichedBrowseItemRec) : decEBI (encEBI e) = some e := by
  simp [encEBI, decEBI, decOptStr_enc, decOptHint_enc, decMycroft_enc]

theorem decEBIList_enc (l : List EnrichedBrowseItemRec) :
    decEBIList (l.map encEBI) = some l := by
  induction l with
  | nil => rfl
  | cons e rest ih => simp [List.map, decEBIList, decEBI_enc, ih]

/-- Every payload type the embedding covers is a key of the registry. -/
theorem registry_contains_payloadTypeName (p : Payload) :
    registryNames.contains (payloadTypeName p) = true := by
  cases p <;> rfl

set_option maxHeartbeats 1000000 in
/-- Schema-validated decoding inverts serialization for every registered
payload value. -/
theorem decodePayloadAs_encPayload (p : Payload) :
    decodePayloadAs (payloadTypeName p) (encPayload p) = some p := by
  cases p with
  | EmptyPayload => rfl
  | UnhandledApplicationError e => rfl
  | DeserializationError e m pt mid top => rfl
  | EchoRequest m => rfl
  | EchoResponse e => rfl
  | SumRequest a b => rfl
  | SumResponse r => rfl
  | RoonAuthSettings v =>
      simp [payloadTypeName, encPayload, decodePayloadAs, decRoonAuthSettings,
        decAuth_enc]
  | RoonCacheData lu rs g pl z o =>
      simp [payloadTypeName, encPayload, decodePayloadAs, decRoonCacheData,
        decOptTimestamp_enc]
  | RoonManualPairSettings h p t ci cn =>
      simp [payloadTypeName, encPayload, decodePayloadAs, decRoonManualPairSettings,
        decOptStr_enc]
  | RoonDiscoverStatus s h p =>
      simp [payloadTypeName, encPayload, decodePayloadAs, decRoonDiscoverStatus,
        discoverStatus_ofWire_toWire, decOptStr_enc, decOptInt_enc]
  | RoonPairStatus s a =>
      simp [payloadTypeName, encPayload, decodePayloadAs, decRoonPairStatus,
        pairingStatus_ofWire_toWire, decOptAuth_enc]
  | MuteRequest oid m => rfl
  | VolumeRelativeChange oid v => rfl
  | VolumeAbsoluteChange oid v => rfl
  | Shuffle zid s => rfl
  | Repeat zid r =>
      simp [payloadTypeName, encPayload, decodePayloadAs, decRepeat,
        repeatOption_ofWire_toWire]
  | PlaybackControl zid c =>
      simp [payloadTypeName, encPayload, decodePayloadAs, decPlaybackControl,
        playbackControlOption_ofWire_toWire]
  | PlaySearch zid ik sk =>
      simp [payloadTypeName, encPayload, decodePayloadAs, decPlaySearch,
        decOptStr_enc]
  | PlayPath zid p re a =>
      simp [payloadTypeName, encPayload, decodePayloadAs, decPlayPath,
        decStrList_enc, decOptStr_enc]
  | SearchType it q =>
      simp [payloadTypeName, encPayload, decodePayloadAs, decSearchType,
        itemType_ofWire_toWire]
  | SearchGeneric q sk => rfl
  | SearchTypeResult rs =>
      simp [payloadTypeName, encPayload, decodePayloadAs, decSearchTypeResult,
        decEBIList_enc]
  | SubscribeCommand a => rfl
  | NowPlayingCommand z => rfl
  | NowPlayingReply np => rfl
  | GetImageCommand k => rfl
  | GetImageReply u =>
      simp [payloadTypeName, encPayload, decodePayloadAs, decGetImageReply,
        decOptStr_enc]

/-- Shared round-trip fact: decoding an encoded envelope restores it. -/
theorem decode_encode (m : Message) : decode (encode m) = m := by
  cases m with
  | mk topic msg_id payload =>
    show dec_hook (enc_hook ⟨topic, msg_id, payload⟩) = _
    simp only [enc_hook, dec_hook, registry_contains_payloadTypeName,
      decodePayloadAs_encPayload, if_true]

/-! ### The request dispatcher (`src/rpc/server.py`) -/

/-- What a registered handler does when invoked: return a payload, return
nothing (`None`), or raise.  `handle_message` calls `func()` when the
request payload is the empty payload and `func(payload)` otherwise, so a
handler is modelled as a function of that optional argument. -/
inductive HandlerOutcome where
  | ok (ret : Option Payload)
  | raises (exc : String)

def Handler := Option Payload → HandlerOutcome

/-- `Server._rpc_router`: the name-to-handler table built by
`register_rpc`. -/
def Router := List (String × Handler)

/-- `self._rpc_router[func_name]`: Python dict indexing, which raises
`KeyError` on a missing key. -/
def routerLookup (router : Router) (func_name : String) : Option Handler :=
  (router.find? (fun p => p.1 == func_name)).map (·.2)

/-- A Python exception escaping the serve loop. -/
inductive PyError where
  | keyError (name : String)
deriving DecidableEq

/-- `Server.handle_message` from `src/rpc/server.py`.  The router lookup
happens before the `try` block, so a missing topic raises `KeyError` out
of the function; only the handler invocation is guarded, its exceptions
being converted to `UnhandledApplicationError(repr(exc))`. -/
def handle_message (router : Router) (func_name : String) (payload : Payload) :
    Except PyError (Option Payload) :=
  match routerLookup router func_name with
  | none => .error (.keyError func_name)
  | some func =>
    match (if is_empty_payload payload then func none else func (some payload)) with
    | .ok ret => .ok ret
    | .raises exc => .ok (some (.UnhandledApplicationError exc))

/-- One iteration of `Server.handle_client`: decode the request; if its
payload already marks a deserialization error, echo that payload back;
otherwise dispatch to `handle_message`; send exactly one reply sharing the
request's topic and msg_id, substituting `EmptyPayload` for a `None`
result.  An exception from `handle_message` escapes the iteration (the
loop's `except` clause only catches `EOFError`). -/
def handle_client_step (router : Router) (env : EnvelopeData) :
    Except PyError Message :=
  let msg := decode env
  let resp : Except PyError (Option Payload) :=
    if is_deserialize_error msg.payload then .ok (some msg.payload)
    else handle_message router msg.topic msg.payload
  resp.map (fun r => ⟨msg.topic, msg.msg_id, r.getD .EmptyPayload⟩)

/-- `Server.handle_client` run over a finite stream of requests (the
stream ending models `EOFError`, which returns from the loop).  Produces
the replies sent, in order, and the exception that terminated the loop
early, if any: requests after a crash are never processed. -/
def handle_client (router : Router) : List EnvelopeData → List Message × Option PyError
  | [] => ([], none)
  | env :: rest =>
    match handle_client_step router env with
    | .error e => ([], some e)
    | .ok reply =>
      let out := handle_client router rest
      (reply :: out.1, out.2)

/-! ### The reliable request/reply clients
(`src/rpc/client_sync.py`, `src/rpc/client_async.py`)

Real time is abstracted into a server oracle: `oracle k` is the reply
(raw envelope) that `socket.poll(_timeout)` finds waiting during attempt
`k` (1-based), or `none` when that poll times out.  The numeric
`timeout` argument only parameterizes the poll and has no further
observable effect, so it does not appear in the oracle-driven model. -/

/-- The observable socket operations a dispatch performs. -/
inductive Step where
  | send | pollReady | pollTimeout | close | reconnect | recv
deriving DecidableEq, Repr

/-- How a dispatch fails.  `timeout` is the `TimeoutException` of
`rpc/error.py` (that module is absent from `src/`; modelled from the
spec: the transport-timeout failure raised when retries are exhausted).
`keyError` is the `KeyError` that `self._responses.pop(req_id)` raises
when no entry with the request's correlation id was stored. -/
inductive DispatchError where
  | timeout
  | keyError
deriving DecidableEq, Repr

/-- Which error handler `Client.handle_error` ends up invoking. -/
inductive HandlerChoice where
  | endpoint | instanceHandler | defaultHandler
deriving DecidableEq, Repr

/-- A reply oracle: the server behaviour as seen by the polls. -/
def ServerOracle := Nat → Option EnvelopeData

/-- Python dict assignment `d[k] = v`. -/
def dictSet (d : List (String × Message)) (k : String) (v : Message) :
    List (String × Message) :=
  (k, v) :: d.filter (fun p => p.1 != k)

/-- Python dict lookup as used by `d.pop(k)` (`none` models the
`KeyError` path). -/
def dictPop (d : List (String × Message)) (k : String) : Option Message :=
  (d.find? (fun p => p.1 == k)).map (·.2)

/-- Client-side state relevant to `dispatch`: the constructor defaults
and the handler installed by `set_error_handler`, plus the `_responses`
dictionary. -/
structure ClientState where
  default_timeout : Nat
  default_retries : Nat
  error_handler : Option Unit
  responses : List (String × Message)

/-- The outcome of one `dispatch` call: the socket steps it performed,
its result (returned payload or raised exception), and which error
handler, if any, it invoked. -/
structure DispatchResult where
  steps : List Step
  result : Except DispatchError Payload
  handled : Option HandlerChoice

namespace ClientSync

/-- The `_poll_data` closure of `Client.dispatch` in
`src/rpc/client_sync.py` (the lazy-pirate loop), already past its initial
`self.socket.send(data)`.  Arguments: the reply oracle, the current
`_responses` dictionary, `retries_left`, and the 1-based number of the
attempt whose reply the next poll would see.  Returns the steps
performed, the final `_responses` dictionary, and either the decoded
reply stored into the dictionary or the timeout failure.  `close()` and
`_init()` both reset `_responses` to `{}`, which is why the recursive
call passes `[]`. -/
def lazyPirate (oracle : ServerOracle) (responses : List (String × Message)) :
    Nat → Nat → List Step × List (String × Message) × Except DispatchError Message
  | 0, _ => ([.close], [], .error .timeout)
  | r + 1, attempt =>
    match oracle attempt with
    | some d =>
      let rsp := decode d
      ([.pollReady, .recv], dictSet responses rsp.msg_id rsp, .ok rsp)
    | none =>
      let out := lazyPirate oracle [] r (attempt + 1)
      (.pollTimeout :: .close :: .reconnect :: .send :: out.1, out.2.1, out.2.2)

/-- `Client.handle_error` from `src/rpc/client_sync.py`: invoke the first
non-`None` entry of `[endpoint_error_handler, self.error_handler,
default_error_handler]`. -/
def handle_error (endpoint_error_handler instance_handler : Option Unit) :
    HandlerChoice :=
  let error_handlers : List (Option HandlerChoice) :=
    [endpoint_error_handler.map fun _ => .endpoint,
     instance_handler.map fun _ => .instanceHandler,
     some .defaultHandler]
  ((error_handlers.filterMap id).head?).getD .defaultHandler

/-- `Client.dispatch` from `src/rpc/client_sync.py`.  `req_id` stands for
the fresh `unique_id()`.  The envelope `encode(msg)` is sent on every
attempt; replies are decoded, stored under their own `msg_id`, and the
entry for `req_id` is popped (raising `KeyError` when the reply carried a
different correlation id).  An `UnhandledApplicationError` reply passes
through the error-handler chain and is still returned. -/
def dispatch (st : ClientState) (oracle : ServerOracle) (func_name : String)
    (payload : Option Payload) (timeout retries : Option Nat)
    (error_handler : Option Unit) (req_id : String) : DispatchResult :=
  let _timeout := timeout.getD st.default_timeout
  let _retries := retries.getD st.default_retries
  let msg : Message := ⟨func_name, req_id, payload.getD .EmptyPayload⟩
  let _data := encode msg
  let out := lazyPirate oracle st.responses _retries 1
  let steps := Step.send :: out.1
  match out.2.2 with
  | .error e => { steps := steps, result := .error e, handled := none }
  | .ok _ =>
    match dictPop out.2.1 req_id with
    | none => { steps := steps, result := .error .keyError, handled := none }
    | some rsp =>
      if is_unhandled_application_error rsp.payload then
        { steps := steps, result := .ok rsp.payload
          handled := some (handle_error error_handler st.error_handler) }
      else
        { steps := steps, result := .ok rsp.payload, handled := none }

end ClientSync

namespace ClientAsync

/-- The `_poll_data` closure of `Client.dispatch` in
`src/rpc/client_async.py`; identical to the synchronous one except that
its socket operations are awaited. -/
def lazyPirate (oracle : ServerOracle) (responses : List (String × Message)) :
    Nat → Nat → List Step × List (String × Message) × Except DispatchError Message
  | 0, _ => ([.close], [], .error .timeout)
  | r + 1, attempt =>
    match oracle attempt with
    | some d =>
      let rsp := decode d
      ([.pollReady, .recv], dictSet responses rsp.msg_id rsp, .ok rsp)
    | none =>
      let out := lazyPirate oracle [] r (attempt + 1)
      (.pollTimeout :: .close :: .reconnect :: .send :: out.1, out.2.1, out.2.2)

/-- `Client.handle_error` from `src/rpc/client_async.py`. -/
def handle_error (endpoint_error_handler instance_handler : Option Unit) :
    HandlerChoice :=
  let error_handlers : List (Option HandlerChoice) :=
    [endpoint_error_handler.map fun _ => .endpoint,
     instance_handler.map fun _ => .instanceHandler,
     some .defaultHandler]
  ((error_handlers.filterMap id).head?).getD .defaultHandler

/-- The `while req_id not in self._responses and current_time_us() <=
expire_at: await asyncio.sleep(1e-6)` loop of the asynchronous
`dispatch`.  No other task mutates `_responses`, the loop body only
sleeps, and real time eventually passes `expire_at`, so the loop always
terminates with the dictionary unchanged; sleeping has no observable
socket effect. -/
def waitLoop (responses : List (String × Message)) (req_id : String) :
    List (String × Message) :=
  let _ := req_id
  responses

/-- `Client.dispatch` from `src/rpc/client_async.py`. -/
def dispatch (st : ClientState) (oracle : ServerOracle) (func_name : String)
    (payload : Option Payload) (timeout retries : Option Nat)
    (error_handler : Option Unit) (req_id : String) : DispatchResult :=
  let _timeout := timeout.getD st.default_timeout
  let _retries := retries.getD st.default_retries
  let msg : Message := ⟨func_name, req_id, payload.getD .EmptyPayload⟩
  let _data := encode msg
  let out := lazyPirate oracle st.responses _retries 1
  let steps := Step.send :: out.1
  match out.2.2 with
  | .error e => { steps := steps, result := .error e, handled := none }
  | .ok _ =>
    match dictPop (waitLoop out.2.1 req_id) req_id with
    | none => { steps := steps, result := .error .keyError, handled := none }
    | some rsp =>
      if is_unhandled_application_error rsp.payload then
        { steps := steps, result := .ok rsp.payload
          handled := some (handle_error error_handler st.error_handler) }
      else
        { steps := steps, result := .ok rsp.payload, handled := none }

end ClientAsync

/-! ### The pub/sub subscription logic
(`src/roon_proxy/roon_proxy_client.py`) -/

/-- A `RoonPubSub` listener object.  Callbacks are compared with `!=` by
`subscribe`, so they are modelled by comparable identifiers; `ident`
tracks object identity across creations. -/
structure RoonPubSub where
  ident : Nat
  address : String
  cb : Nat
  stopped : Bool
deriving DecidableEq, Repr

/-- Externally visible effects of `subscribe` / `unsubscribe`:
the `dispatch("subscribe", SubscribeCommand(address))` RPC, the creation
of a `RoonPubSub` listener (its constructor starts the background
thread), and `RoonPubSub.stop()`. -/
inductive SubEvent where
  | dispatchSubscribe (address : String)
  | startListener (ident : Nat) (cb : Nat)
  | stopListener (ident : Nat)
deriving DecidableEq, Repr

/-- The `RoonProxyClient` state `subscribe` reads and writes: the
`self.pubsub` attribute, plus a supply of fresh listener identities. -/
structure ProxyState where
  pubsub : Option RoonPubSub
  fresh : Nat
deriving Repr

/-- `RoonProxyClient.unsubscribe`: stop the current listener, if any, and
drop the reference. -/
def unsubscribe (st : ProxyState) : ProxyState × List SubEvent :=
  match st.pubsub with
  | some ps => ({ st with pubsub := none }, [.stopListener ps.ident])
  | none => (st, [])

/-- `RoonProxyClient.subscribe`: always dispatch the `subscribe` RPC;
then create a listener if none exists; if one exists with a different
callback, `unsubscribe()` first and recursively `subscribe` again; with
the same callback, do nothing further.  The recursive call runs after
`unsubscribe` has cleared `self.pubsub`, so its depth never exceeds two;
the recursion is therefore given explicit fuel (`subscribe` supplies 2),
which keeps the definition structurally recursive. -/
def subscribeGo : Nat → ProxyState → String → Nat → ProxyState × List SubEvent
  | 0, st, _address, _cb => (st, [])
  | fuel + 1, st, address, cb =>
    match st.pubsub with
    | none =>
      ({ pubsub := some ⟨st.fresh, address, cb, false⟩, fresh := st.fresh + 1 },
       [.dispatchSubscribe address, .startListener st.fresh cb])
    | some ps =>
      if cb ≠ ps.cb then
        let u := unsubscribe st
        let s := subscribeGo fuel u.1 address cb
        (s.1, .dispatchSubscribe address :: (u.2 ++ s.2))
      else
        (st, [.dispatchSubscribe address])

/-- `RoonProxyClient.subscribe` (see `subscribeGo`). -/
def subscribe (st : ProxyState) (address : String) (cb : Nat) :
    ProxyState × List SubEvent :=
  subscribeGo 2 st address cb

/-! ### Test fixtures (handlers mirroring `src/rpc/test_server.py` and
the spec's end-to-end scenarios) -/

/-- `handle_echo` (without its simulated random crash). -/
def echoHandler : Handler := fun p =>
  match p with
  | some (Payload.EchoRequest m) => .ok (some (.EchoResponse m))
  | _ => .raises "TypeError"

/-- `handle_gogo`: takes no payload, returns `None`. -/
def gogoHandler : Handler := fun _ => .ok none

/-- A handler that always raises. -/
def boomHandler : Handler := fun _ => .raises "RuntimeError: boom"

/-! ### Helper lemmas about the clients -/

/-- A server that first has a reply waiting at poll number `k`. -/
def oracleAt (k : Nat) (d : EnvelopeData) : ServerOracle :=
  fun i => if i = k then some d else none

/-- The steps the lazy-pirate loop performs when every poll times out,
entered with `r` retries left. -/
def timeoutTrace : Nat → List Step
  | 0 => [.close]
  | r + 1 => .pollTimeout :: .close :: .reconnect :: .send :: timeoutTrace r

/-- The steps the lazy-pirate loop performs when the reply appears after
exactly `j` timed-out polls. -/
def retryTrace : Nat → List Step
  | 0 => [.pollReady, .recv]
  | j + 1 => .pollTimeout :: .close :: .reconnect :: .send :: retryTrace j

theorem timeoutTrace_count_send (r : Nat) : (timeoutTrace r).count .send = r := by
  induction r with
  | zero => rfl
  | succ r ih => simp [timeoutTrace, List.count_cons, ih]

theorem retryTrace_count_send (j : Nat) : (retryTrace j).count .send = j := by
  induction j with
  | zero => rfl
  | succ j ih => simp [retryTrace, List.count_cons, ih]

theorem dictPop_dictSet_self (d : List (String × Message)) (k : String) (v : Message) :
    dictPop (dictSet d k v) k = some v := by
  simp [dictPop, dictSet, List.find?]

theorem ClientSync.lazyPirate_silent (resp : List (String × Message)) (r attempt : Nat) :
    ClientSync.lazyPirate (fun _ => none) resp r attempt =
      (timeoutTrace r, [], .error .timeout) := by
  induction r generalizing resp attempt with
  | zero => rfl
  | succ r ih => simp [ClientSync.lazyPirate, timeoutTrace, ih]

theorem ClientSync.dispatch_silent (st : ClientState) (fn : String)
    (payload : Option Payload) (tmo : Option Nat) (R : Nat) (eh : Option Unit)
    (req_id : String) :
    ClientSync.dispatch st (fun _ => none) fn payload tmo (some R) eh req_id =
      { steps := .send :: timeoutTrace R, result := .error .timeout, handled := none } := by
  simp [ClientSync.dispatch, ClientSync.lazyPirate_silent]

theorem ClientSync.lazyPirate_oracleAt (d : EnvelopeData) (j : Nat) :
    ∀ (r attempt : Nat) (resp : List (String × Message)), j < r →
    ClientSync.lazyPirate (oracleAt (attempt + j) d) resp r attempt =
      (retryTrace j,
       dictSet (if j = 0 then resp else []) (decode d).msg_id (decode d),
       .ok (decode d)) := by
  induction j with
  | zero =>
    intro r attempt resp hjr
    obtain ⟨r, rfl⟩ : ∃ s, r = s + 1 := ⟨r - 1, by omega⟩
    simp [ClientSync.lazyPirate, oracleAt, retryTrace]
  | succ j ih =>
    intro r attempt resp hjr
    obtain ⟨r, rfl⟩ : ∃ s, r = s + 1 := ⟨r - 1, by omega⟩
    have harr : attempt + (j + 1) = attempt + 1 + j := by omega
    rw [harr]
    have hnone : oracleAt (attempt + 1 + j) d attempt = none := by
      have hne : ¬ attempt = attempt + 1 + j := by omega
      simp [oracleAt, hne]
    simp only [ClientSync.lazyPirate, hnone]
    rw [ih r (attempt + 1) [] (by omega)]
    simp [retryTrace]

theorem ClientSync.dispatch_oracle_succ (st : ClientState) (fn : String)
    (payload : Option Payload) (tmo : Option Nat) (R j : Nat) (eh : Option Unit)
    (req_id : String) (d : EnvelopeData) (hj : j < R)
    (hid : (decode d).msg_id = req_id) :
    ClientSync.dispatch st (oracleAt (1 + j) d) fn payload tmo (some R) eh req_id =
      { steps := .send :: retryTrace j
        result := .ok (decode d).payload
        handled := if is_unhandled_application_error (decode d).payload then
            some (ClientSync.handle_error eh st.error_handler) else none } := by
  simp only [ClientSync.dispatch, Option.getD_some]
  rw [ClientSync.lazyPirate_oracleAt d j R 1 st.responses hj, hid]
  simp only [dictPop_dictSet_self]
  split <;> rfl

theorem lazyPirate_sync_eq_async (oracle : ServerOracle) (r : Nat) :
    ∀ (resp : List (String × Message)) (attempt : Nat),
    ClientSync.lazyPirate oracle resp r attempt =
      ClientAsync.lazyPirate oracle resp r attempt := by
  induction r with
  | zero => intro resp attempt; rfl
  | succ r ih =>
    intro resp attempt
    simp only [ClientSync.lazyPirate, ClientAsync.lazyPirate]
    cases oracle attempt with
    | some d => rfl
    | none => rw [ih]

theorem handle_error_async_eq_sync (e i : Option Unit) :
    ClientAsync.handle_error e i = ClientSync.handle_error e i := rfl

theorem dispatch_async_eq_sync (st : ClientState) (oracle : ServerOracle)
    (fn : String) (payload : Option Payload) (tmo retries : Option Nat)
    (eh : Option Unit) (req_id : String) :
    ClientAsync.dispatch st oracle fn payload tmo retries eh req_id =
      ClientSync.dispatch st oracle fn payload tmo retries eh req_id := by
  simp only [ClientSync.dispatch, ClientAsync.dispatch, ClientAsync.waitLoop,
    handle_error_async_eq_sync]
  rw [lazyPirate_sync_eq_async]

/-! ### The claims -/

/-- C1, counterexample to the claim as stated: with `retries = 0` the
claim's bound `k ≤ R + 1` allows `k = 1`, yet against a server whose
reply is ready at the very first poll the dispatch still raises the
timeout: the loop body never runs, so the reply to the final send is
never polled for. -/
theorem C1_counterexample :
    (ClientSync.dispatch ⟨2000, 3, none, []⟩
        (oracleAt 1 (encode ⟨"topic", "rid", .EchoResponse "pong"⟩))
        "topic" none none (some 0) none "rid").result = .error .timeout ∧
    (ClientAsync.dispatch ⟨2000, 3, none, []⟩
        (oracleAt 1 (encode ⟨"topic", "rid", .EchoResponse "pong"⟩))
        "topic" none none (some 0) none "rid").result = .error .timeout :=
  ⟨rfl, rfl⟩

/-- C1 (amended): against a server that never replies, `dispatch` with
`retries = R` performs exactly `R + 1` sends and fails with the timeout,
in both client variants; against a server whose reply is first ready at
poll `k` with `1 ≤ k ≤ R` (not `R + 1`: the final resend is never
polled), the dispatch succeeds and returns that reply's payload. -/
theorem C1_retry_law (st : ClientState) (fn : String) (payload : Option Payload)
    (tmo : Option Nat) (R k : Nat) (eh : Option Unit) (req_id : String)
    (d : EnvelopeData) (hk : 1 ≤ k) (hkR : k ≤ R)
    (hid : (decode d).msg_id = req_id) :
    ((ClientSync.dispatch st (fun _ => none) fn payload tmo (some R) eh req_id).steps.count
        .send = R + 1 ∧
      (ClientSync.dispatch st (fun _ => none) fn payload tmo (some R) eh req_id).result =
        .error .timeout) ∧
    ((ClientAsync.dispatch st (fun _ => none) fn payload tmo (some R) eh req_id).steps.count
        .send = R + 1 ∧
      (ClientAsync.dispatch st (fun _ => none) fn payload tmo (some R) eh req_id).result =
        .error .timeout) ∧
    (ClientSync.dispatch st (oracleAt k d) fn payload tmo (some R) eh req_id).result =
      .ok (decode d).payload ∧
    (ClientAsync.dispatch st (oracleAt k d) fn payload tmo (some R) eh req_id).result =
      .ok (decode d).payload := by
  obtain ⟨j, rfl⟩ : ∃ j, k = 1 + j := ⟨k - 1, by omega⟩
  have hj : j < R := by omega
  refine ⟨⟨?_, ?_⟩, ⟨?_, ?_⟩, ?_, ?_⟩ <;>
    simp [ClientSync.dispatch_silent, dispatch_async_eq_sync,
      ClientSync.dispatch_oracle_succ st fn payload tmo R j eh req_id d hj hid,
      List.count_cons, timeoutTrace_count_send]

/-- Witness for C1 (amended), at `R = 1`, `k = 1`, with an echo reply
correlated to the request id. -/
theorem C1_retry_law_witness :
    (decode (encode ⟨"t", "rid", Payload.EchoResponse "pong"⟩)).msg_id = "rid" ∧
    (ClientSync.dispatch ⟨2000, 3, none, []⟩
        (oracleAt 1 (encode ⟨"t", "rid", Payload.EchoResponse "pong"⟩))
        "t" none none (some 1) none "rid").result =
      .ok (decode (encode ⟨"t", "rid", Payload.EchoResponse "pong"⟩)).payload :=
  ⟨rfl, (C1_retry_law ⟨2000, 3, none, []⟩ "t" none none 1 1 none "rid"
      (encode ⟨"t", "rid", Payload.EchoResponse "pong"⟩)
      (by decide) (by decide) rfl).2.2.1⟩

/-- C2: the spec says a request for an unregistered topic is answered
with an application-error payload and the serve loop keeps going.  The
code instead evaluates `self._rpc_router[func_name]` before the guarded
region, so the lookup's `KeyError` escapes `handle_message` and
`handle_client` (whose only handler is for `EOFError`): no reply is sent
and the loop dies, leaving the next request unprocessed.  This theorem
evaluates the serve loop at the failing input. -/
theorem C2_missing_topic_crashes_serve_loop :
    handle_client [("handle_echo", echoHandler)]
      [encode ⟨"nope", "m1", .EmptyPayload⟩,
       encode ⟨"handle_echo", "m2", .EchoRequest "ping"⟩] =
      ([], some (.keyError "nope")) := rfl

/-- C3: decoding the encoding of any envelope built from a registered
payload value yields an envelope equal (in the sense of
`Message.__eq__`) to the original. -/
theorem C3_round_trip (topic msg_id : String) (p : Payload) :
    messageEq (decode (encode ⟨topic, msg_id, p⟩)) ⟨topic, msg_id, p⟩ := by
  rw [decode_encode]
  exact ⟨rfl, rfl, rfl⟩

/-- C4: decoding a well-formed envelope whose type tag is not registered
returns (never raises) a message whose payload is a `DeserializationError`
carrying the offending type name and the original topic and msg_id; an
envelope whose inner payload fails schema validation against the
registered type gets the same treatment. -/
theorem C4_unknown_type_law (t topic mid : String) (v : MsgValue) :
    (registryNames.contains t = false →
      decode ⟨t, topic, mid, v⟩ =
        ⟨topic, mid, .DeserializationError (keyErrorRepr t)
          ("Unknown payload type: " ++ t) t mid topic⟩) ∧
    (registryNames.contains t = true → decodePayloadAs t v = none →
      decode ⟨t, topic, mid, v⟩ =
        ⟨topic, mid, .DeserializationError (validationErrorRepr t)
          ("Payload type failed to deserialize " ++ t) t mid topic⟩) := by
  constructor
  · intro hmiss
    show dec_hook ⟨t, topic, mid, v⟩ = _
    unfold dec_hook
    rw [if_neg (by rw [hmiss]; exact Bool.false_ne_true)]
  · intro hhit hfail
    show dec_hook ⟨t, topic, mid, v⟩ = _
    unfold dec_hook
    rw [if_pos hhit, hfail]

/-- Witness for C4: an unregistered tag, and a registered tag with an
invalid inner payload. -/
theorem C4_unknown_type_law_witness :
    decode ⟨"Bogus", "top", "mid", .nil⟩ =
      ⟨"top", "mid", .DeserializationError (keyErrorRepr "Bogus")
        ("Unknown payload type: " ++ "Bogus") "Bogus" "mid" "top"⟩ ∧
    decode ⟨"EchoRequest", "top", "mid", .nil⟩ =
      ⟨"top", "mid", .DeserializationError (validationErrorRepr "EchoRequest")
        ("Payload type failed to deserialize " ++ "EchoRequest")
        "EchoRequest" "mid" "top"⟩ :=
  ⟨(C4_unknown_type_law "Bogus" "top" "mid" .nil).1 rfl,
   (C4_unknown_type_law "EchoRequest" "top" "mid" .nil).2 rfl rfl⟩

/-- C5: a registered handler that raises produces an
`UnhandledApplicationError` reply wrapping the failure's description; the
exception never escapes the serve loop, which goes on to process the
remaining requests exactly as it would have. -/
theorem C5_handler_fault (router : Router) (name mid : String) (p : Payload)
    (h : Handler) (exc : String) (rest : List EnvelopeData)
    (hde : is_deserialize_error p = false)
    (hlook : routerLookup router name = some h)
    (hraise : (if is_empty_payload p then h none else h (some p)) = .raises exc) :
    handle_client router (encode ⟨name, mid, p⟩ :: rest) =
      ((⟨name, mid, .UnhandledApplicationError exc⟩ : Message)
          :: (handle_client router rest).1,
       (handle_client router rest).2) := by
  simp [handle_client, handle_client_step, decode_encode, hde, handle_message,
    hlook, hraise, Except.map]

/-- Witness for C5: a one-request stream whose handler always raises. -/
theorem C5_handler_fault_witness :
    handle_client [("boom", boomHandler)] [encode ⟨"boom", "m1", .EmptyPayload⟩] =
      ([⟨"boom", "m1", .UnhandledApplicationError "RuntimeError: boom"⟩], none) := by
  have := C5_handler_fault [("boom", boomHandler)] "boom" "m1" .EmptyPayload
    boomHandler "RuntimeError: boom" [] rfl rfl rfl
  simpa [handle_client] using this

/-- C6: for every request the server processes to completion (its payload
is a deserialization error, or its topic has a registered handler), the
serve loop sends exactly one reply for it, sharing the request's topic
and msg_id, and a handler that returned `None` yields the `EmptyPayload`
reply. -/
theorem C6_exactly_one_reply (router : Router) (env : EnvelopeData)
    (rest : List EnvelopeData) :
    (is_deserialize_error (decode env).payload = true →
      handle_client router (env :: rest) =
        ((⟨(decode env).topic, (decode env).msg_id, (decode env).payload⟩ : Message)
            :: (handle_client router rest).1,
         (handle_client router rest).2)) ∧
    (∀ h : Handler, routerLookup router (decode env).topic = some h →
      is_deserialize_error (decode env).payload = false →
      ∃ reply : Message,
        handle_client router (env :: rest) =
          (reply :: (handle_client router rest).1, (handle_client router rest).2) ∧
        reply.topic = (decode env).topic ∧
        reply.msg_id = (decode env).msg_id ∧
        ((if is_empty_payload (decode env).payload then h none
            else h (some (decode env).payload)) = .ok none →
          reply.payload = .EmptyPayload)) := by
  constructor
  · intro hde
    simp [handle_client, handle_client_step, hde, Except.map]
  · intro h hlook hde
    cases hres : (if is_empty_payload (decode env).payload then h none
        else h (some (decode env).payload)) with
    | ok ret =>
      refine ⟨⟨(decode env).topic, (decode env).msg_id, ret.getD .EmptyPayload⟩,
        ?_, rfl, rfl, ?_⟩
      · simp [handle_client, handle_client_step, hde, handle_message, hlook, hres,
          Except.map]
      · intro hnone
        injection hnone with h1
        subst h1
        rfl
    | raises exc =>
      refine ⟨⟨(decode env).topic, (decode env).msg_id, .UnhandledApplicationError exc⟩,
        ?_, rfl, rfl, ?_⟩
      · simp [handle_client, handle_client_step, hde, handle_message, hlook, hres,
          Except.map]
      · intro hnone
        exact absurd hnone (by simp)

/-- Witness for C6: a deserialization-error request echoed back, and a
handler returning `None` answered with the empty payload. -/
theorem C6_exactly_one_reply_witness :
    (handle_client [("gogo", gogoHandler)] [⟨"Bogus", "nope", "m9", .nil⟩] =
      ([⟨"nope", "m9", .DeserializationError (keyErrorRepr "Bogus")
          ("Unknown payload type: " ++ "Bogus") "Bogus" "m9" "nope"⟩], none)) ∧
    (∃ reply : Message,
      handle_client [("gogo", gogoHandler)] [encode ⟨"gogo", "m7", .EmptyPayload⟩] =
        ([reply], none) ∧
      reply.topic = "gogo" ∧
      reply.msg_id = "m7" ∧
      ((if is_empty_payload Payload.EmptyPayload then gogoHandler none
          else gogoHandler (some .EmptyPayload)) = .ok none →
        reply.payload = .EmptyPayload)) :=
  ⟨(C6_exactly_one_reply [("gogo", gogoHandler)] ⟨"Bogus", "nope", "m9", .nil⟩ []).1 rfl,
   (C6_exactly_one_reply [("gogo", gogoHandler)]
      (encode ⟨"gogo", "m7", .EmptyPayload⟩) []).2 gogoHandler rfl rfl⟩

/-- C7: when a dispatch decodes a reply whose payload is an
`UnhandledApplicationError`, it does not raise: it returns the raw error
payload, and invokes exactly one error handler, the first present among
the call-site handler, the instance handler set by `set_error_handler`,
and the built-in default handler; in both client variants. -/
theorem C7_error_handler_chain (st : ClientState) (fn : String)
    (payload : Option Payload) (tmo : Option Nat) (R : Nat) (eh : Option Unit)
    (req_id s : String) (hR : 1 ≤ R) :
    (ClientSync.dispatch st
        (oracleAt 1 (encode ⟨fn, req_id, Payload.UnhandledApplicationError s⟩))
        fn payload tmo (some R) eh req_id).result =
      .ok (.UnhandledApplicationError s) ∧
    (ClientSync.dispatch st
        (oracleAt 1 (encode ⟨fn, req_id, Payload.UnhandledApplicationError s⟩))
        fn payload tmo (some R) eh req_id).handled =
      some (ClientSync.handle_error eh st.error_handler) ∧
    (ClientAsync.dispatch st
        (oracleAt 1 (encode ⟨fn, req_id, Payload.UnhandledApplicationError s⟩))
        fn payload tmo (some R) eh req_id).result =
      .ok (.UnhandledApplicationError s) ∧
    (ClientAsync.dispatch st
        (oracleAt 1 (encode ⟨fn, req_id, Payload.UnhandledApplicationError s⟩))
        fn payload tmo (some R) eh req_id).handled =
      some (ClientAsync.handle_error eh st.error_handler) ∧
    ClientSync.handle_error eh st.error_handler =
      (match eh, st.error_handler with
       | some _, _ => .endpoint
       | none, some _ => .instanceHandler
       | none, none => .defaultHandler) := by
  have hj : 0 < R := hR
  have hid : (decode (encode ⟨fn, req_id, Payload.UnhandledApplicationError s⟩)).msg_id
      = req_id := by rw [decode_encode]
  have hdisp := ClientSync.dispatch_oracle_succ st fn payload tmo R 0 eh req_id
    (encode ⟨fn, req_id, Payload.UnhandledApplicationError s⟩) hj hid
  refine ⟨?_, ?_, ?_, ?_, ?_⟩
  · simp [hdisp, decode_encode, is_unhandled_application_error]
  · simp [hdisp, decode_encode, is_unhandled_application_error]
  · simp [dispatch_async_eq_sync, hdisp, decode_encode, is_unhandled_application_error]
  · simp [dispatch_async_eq_sync, hdisp, decode_encode,
      is_unhandled_application_error, handle_error_async_eq_sync]
  · cases eh with
    | some u => rfl
    | none => cases st.error_handler with
      | some u => rfl
      | none => rfl

/-- Witness for C7: no call-site handler, an instance handler installed,
so the instance handler is the one invoked. -/
theorem C7_error_handler_chain_witness :
    (ClientSync.dispatch ⟨2000, 3, some (), []⟩
        (oracleAt 1 (encode ⟨"f", "rid", Payload.UnhandledApplicationError "boom"⟩))
        "f" none none (some 1) none "rid").result =
      .ok (.UnhandledApplicationError "boom") :=
  (C7_error_handler_chain ⟨2000, 3, some (), []⟩ "f" none none 1 none "rid" "boom"
    (by decide)).1

/-- C8: calling `subscribe` again with the callback of the live listener
creates no second listener and leaves the existing one untouched;
calling it with a different callback first stops and discards the old
listener and only then starts a new one carrying the new callback. -/
theorem C8_subscribe_idempotent (st : ProxyState) (address : String) (cb : Nat)
    (ps : RoonPubSub) (hps : st.pubsub = some ps) :
    (cb = ps.cb → subscribe st address cb = (st, [.dispatchSubscribe address])) ∧
    (cb ≠ ps.cb → subscribe st address cb =
      ({ pubsub := some ⟨st.fresh, address, cb, false⟩, fresh := st.fresh + 1 },
       [.dispatchSubscribe address, .stopListener ps.ident,
        .dispatchSubscribe address, .startListener st.fresh cb])) := by
  obtain ⟨pb, fr⟩ := st
  simp only [ProxyState.pubsub] at hps
  subst hps
  constructor
  · intro he
    simp [subscribe, subscribeGo, he]
  · intro hne
    simp [subscribe, subscribeGo, hne, unsubscribe]

/-- Witness for C8: a live listener resubscribed with the same callback,
then with a different one. -/
theorem C8_subscribe_idempotent_witness :
    (subscribe ⟨some ⟨0, "a1", 7, false⟩, 5⟩ "a1" 7 =
      (⟨some ⟨0, "a1", 7, false⟩, 5⟩, [.dispatchSubscribe "a1"])) ∧
    (subscribe ⟨some ⟨0, "a1", 7, false⟩, 5⟩ "a2" 8 =
      (⟨some ⟨5, "a2", 8, false⟩, 6⟩,
       [.dispatchSubscribe "a2", .stopListener 0,
        .dispatchSubscribe "a2", .startListener 5 8])) :=
  ⟨(C8_subscribe_idempotent ⟨some ⟨0, "a1", 7, false⟩, 5⟩ "a1" 7 ⟨0, "a1", 7, false⟩
      rfl).1 rfl,
   (C8_subscribe_idempotent ⟨some ⟨0, "a1", 7, false⟩, 5⟩ "a2" 8 ⟨0, "a1", 7, false⟩
      rfl).2 (by decide)⟩

/-- C9: the blocking and the cooperatively-suspending client perform, for
every topic, payload, timeout, retry budget and server behaviour, the
same sequence of socket steps, the same result, and the same error
handling. -/
theorem C9_sync_async_equiv (st : ClientState) (oracle : ServerOracle)
    (fn : String) (payload : Option Payload) (tmo retries : Option Nat)
    (eh : Option Unit) (req_id : String) :
    (ClientSync.dispatch st oracle fn payload tmo retries eh req_id).steps =
      (ClientAsync.dispatch st oracle fn payload tmo retries eh req_id).steps ∧
    (ClientSync.dispatch st oracle fn payload tmo retries eh req_id).result =
      (ClientAsync.dispatch st oracle fn payload tmo retries eh req_id).result ∧
    (ClientSync.dispatch st oracle fn payload tmo retries eh req_id).handled =
      (ClientAsync.dispatch st oracle fn payload tmo retries eh req_id).handled := by
  rw [dispatch_async_eq_sync]
  exact ⟨rfl, rfl, rfl⟩

/-- C10: with `retries = 0` a dispatch, against any server whatsoever,
performs exactly one send, never polls or receives, closes the socket,
and raises the timeout; in both client variants. -/
theorem C10_zero_retries (st : ClientState) (oracle : ServerOracle) (fn : String)
    (payload : Option Payload) (tmo : Option Nat) (eh : Option Unit)
    (req_id : String) :
    ClientSync.dispatch st oracle fn payload tmo (some 0) eh req_id =
      { steps := [.send, .close], result := .error .timeout, handled := none } ∧
    ClientAsync.dispatch st oracle fn payload tmo (some 0) eh req_id =
      { steps := [.send, .close], result := .error .timeout, handled := none } :=
  ⟨rfl, rfl⟩
